import Mathlib

/-!
Shallow embedding of the inventory-accuracy engine implemented by the class
`SistemaControleEstoque` (src/Analise.py) together with the sidebar reset
handler.  Python session state is modelled by the structure `EstadoSessao`;
Python dicts become association lists that keep insertion order (`dictInsert`
reproduces dict assignment: overwrite in place, else append); monetary floats
become `Rat`; integer quantities become `Int`; `datetime.now()` becomes a tick
counter; `random.uniform(-0.5, 0.5)` becomes an explicit jitter stream
`Nat → Rat`; a coercion failure of `int(...)`/`float(...)` is modelled by an
`Option` field being `none`.
-/

/-- One entry of `st.session_state.estoque_sistema` (Analise.py lines 101-107).
The `ultima_contagem` field of the source is a random timestamp never read by
any computation, so it is omitted here. -/
structure ItemSistema where
  quantidade : Int
  nome : String
  categoria : String
  valor_unitario : Rat
deriving DecidableEq

/-- One entry of `st.session_state.contagens_ciclicas` (Analise.py lines
249-259).  `timestamp` is the tick of the session clock at reconciliation
time. -/
structure Contagem where
  timestamp : Nat
  codigo : String
  nome : String
  categoria : String
  qtd_sistema : Int
  qtd_fisica : Int
  divergencia : Int
  valor_divergencia : Rat
  status : String
deriving DecidableEq

/-- One element of the list built by `obter_produtos_divergentes` (Analise.py
lines 218-229). -/
structure ProdutoDivergente where
  codigo : String
  nome : String
  categoria : String
  qtd_sistema : Int
  qtd_fisica : Int
  divergencia_unidades : Int
  divergencia_percentual : Rat
  valor_unitario : Rat
  valor_divergencia : Rat
  tipo : String
deriving DecidableEq

/-- The dictionary returned by `calcular_acuracidade` on success (Analise.py
lines 285-292). -/
structure Metricas where
  acuracidade_percentual : Rat
  total_contagens : Nat
  produtos_divergentes : Nat
  valor_divergencias : Rat
  impacto_financeiro_percent : Rat
  valor_total_estoque : Rat
deriving DecidableEq

/-- One row of the DataFrame returned by `gerar_dados_simulacao` (Analise.py
lines 333-337). -/
structure PontoSimulacao where
  dia : Nat
  acuracidade : Rat
  fase : String
deriving DecidableEq

/-- One row of the uploaded system spreadsheet.  A `none` in `quantidade` or
`valor_unitario` models a value on which `int(...)` respectively `float(...)`
raises (Analise.py lines 100-105). -/
structure LinhaSistema where
  codigo : String
  nome : String
  categoria : String
  quantidade : Option Int
  valor_unitario : Option Rat
deriving DecidableEq

/-- The uploaded system spreadsheet: its column set plus its rows. -/
structure PlanilhaSistema where
  colunas : List String
  linhas : List LinhaSistema
deriving DecidableEq

/-- One row of the uploaded physical-count spreadsheet (Analise.py lines
139-144). -/
structure LinhaFisico where
  codigo : String
  quantidade_fisica : Option Int
deriving DecidableEq

/-- The uploaded physical-count spreadsheet. -/
structure PlanilhaFisico where
  colunas : List String
  linhas : List LinhaFisico
deriving DecidableEq

/-- The Streamlit session state initialised in `_inicializar_session_states`
(Analise.py lines 60-73), plus a tick counter standing in for the wall
clock. -/
structure EstadoSessao where
  estoque_sistema : List (String × ItemSistema)
  estoque_fisico : List (String × Int)
  movimentacoes : List Contagem
  divergencias : List Contagem
  contagens_ciclicas : List Contagem
  agora : Nat
deriving DecidableEq

/-- The freshly initialised session state: every store empty. -/
def estadoInicial : EstadoSessao :=
  { estoque_sistema := []
    estoque_fisico := []
    movimentacoes := []
    divergencias := []
    contagens_ciclicas := []
    agora := 0 }

/-- Python dict assignment `d[k] = v`: overwrite in place when the key exists,
otherwise append at the end (dicts keep insertion order). -/
def dictInsert {β : Type} (d : List (String × β)) (k : String) (v : β) :
    List (String × β) :=
  if d.any (fun p => p.1 == k) then
    d.map (fun p => if p.1 == k then (k, v) else p)
  else
    d ++ [(k, v)]

/-- `_validar_colunas` (Analise.py lines 156-165): the required columns that
are not present in the DataFrame. -/
def colunas_faltantes (colunas obrigatorias : List String) : List String :=
  obrigatorias.filter (fun col => ¬ colunas.contains col)

/-- `_validar_colunas` succeeds exactly when no required column is missing. -/
def validar_colunas (colunas obrigatorias : List String) : Bool :=
  (colunas_faltantes colunas obrigatorias).isEmpty

/-- Python `str.strip()`: remove leading and trailing whitespace.  (Lean's
own trimming function is defined by well-founded recursion and does not
reduce definitionally, so the embedding uses this structural equivalent.) -/
def aparar (s : String) : String :=
  String.mk (((s.data.dropWhile Char.isWhitespace).reverse.dropWhile
    Char.isWhitespace).reverse)

/-- The body of the row loop of `carregar_planilha_sistema` (Analise.py lines
99-107): coerce one row, `none` when `int(row['quantidade'])` or
`float(row['valor_unitario'])` raises. -/
def coagirLinhaSistema (l : LinhaSistema) : Option (String × ItemSistema) :=
  match l.quantidade, l.valor_unitario with
  | some q, some v =>
      some (aparar l.codigo,
        { quantidade := q
          nome := aparar l.nome
          categoria := aparar l.categoria
          valor_unitario := v })
  | _, _ => none

/-- The row loop of `carregar_planilha_sistema`: rows are written into the
(previously cleared) store one by one; the first coercion failure raises,
leaving the rows loaded so far in the store (the surrounding `except` then
reports failure). -/
def carregarLinhasSistema (acc : List (String × ItemSistema)) :
    List LinhaSistema → Bool × List (String × ItemSistema)
  | [] => (true, acc)
  | l :: resto =>
      match coagirLinhaSistema l with
      | some (codigo, item) => carregarLinhasSistema (dictInsert acc codigo item) resto
      | none => (false, acc)

/-- `carregar_planilha_sistema` (Analise.py lines 77-114): validate columns
(store untouched on failure), then clear the store and load row by row; a
row-level coercion failure is caught by the `except` and reported as `false`,
with the store left holding the partially loaded rows. -/
def carregar_planilha_sistema (st : EstadoSessao) (pl : PlanilhaSistema) :
    Bool × EstadoSessao :=
  if ¬ validar_colunas pl.colunas
      ["codigo", "nome", "categoria", "quantidade", "valor_unitario"] then
    (false, st)
  else
    let r := carregarLinhasSistema [] pl.linhas
    (r.1, { st with estoque_sistema := r.2 })

/-- The row loop of `carregar_planilha_fisico` (Analise.py lines 139-144):
rows whose trimmed code is known to the catalog are stored (a coercion failure
of `int(row['quantidade_fisica'])` raises, keeping the partial store); unknown
codes are collected. -/
def carregarLinhasFisico (sistema : List (String × ItemSistema))
    (acc : List (String × Int)) (desconhecidos : List String) :
    List LinhaFisico → Bool × List (String × Int) × List String
  | [] => (true, acc, desconhecidos)
  | l :: resto =>
      let codigo := aparar l.codigo
      if (sistema.map Prod.fst).contains codigo then
        match l.quantidade_fisica with
        | some q => carregarLinhasFisico sistema (dictInsert acc codigo q) desconhecidos resto
        | none => (false, acc, desconhecidos)
      else
        carregarLinhasFisico sistema acc (desconhecidos ++ [codigo]) resto

/-- `carregar_planilha_fisico` (Analise.py lines 116-154). -/
def carregar_planilha_fisico (st : EstadoSessao) (pl : PlanilhaFisico) :
    Bool × EstadoSessao :=
  if ¬ validar_colunas pl.colunas ["codigo", "quantidade_fisica"] then
    (false, st)
  else
    let r := carregarLinhasFisico st.estoque_sistema [] [] pl.linhas
    (r.1, { st with estoque_fisico := r.2.1 })

/-- `_obter_produtos_comuns` (Analise.py lines 233-235).  The source builds a
Python `set`; here the intersection is the catalog-ordered list of catalog
keys that also occur among the observation keys, a deterministic
representative of the set's iteration order. -/
def obter_produtos_comuns (st : EstadoSessao) : List String :=
  (st.estoque_sistema.map Prod.fst).filter
    (fun codigo => (st.estoque_fisico.map Prod.fst).contains codigo)

/-- The body of the loop of `obter_produtos_divergentes` (Analise.py lines
211-229): the divergence record for one code, `none` when the code misses one
of the stores or its divergence is zero. -/
def divergenciaDe (st : EstadoSessao) (codigo : String) :
    Option ProdutoDivergente :=
  match st.estoque_sistema.lookup codigo, st.estoque_fisico.lookup codigo with
  | some produto_info, some qtd_fisica =>
      let qtd_sistema := produto_info.quantidade
      let divergencia := qtd_fisica - qtd_sistema
      if divergencia ≠ 0 then
        some
          { codigo := codigo
            nome := produto_info.nome
            categoria := produto_info.categoria
            qtd_sistema := qtd_sistema
            qtd_fisica := qtd_fisica
            divergencia_unidades := divergencia
            divergencia_percentual :=
              if qtd_sistema > 0 then (divergencia : Rat) / (qtd_sistema : Rat) * 100 else 0
            valor_unitario := produto_info.valor_unitario
            valor_divergencia := (divergencia.natAbs : Rat) * produto_info.valor_unitario
            tipo := if divergencia > 0 then "Sobra" else "Falta" }
      else none
  | _, _ => none

/-- The unsorted list `produtos_divergentes` accumulated by the loop of
`obter_produtos_divergentes` before the final `sorted(...)` call. -/
def produtosDivergentesBrutos (st : EstadoSessao) : List ProdutoDivergente :=
  (obter_produtos_comuns st).filterMap (divergenciaDe st)

/-- The comparison realising Python
`sorted(..., key=lambda x: abs(x['valor_divergencia']), reverse=True)`:
a stable sort places `a` before `b` whenever `a`'s key is at least `b`'s. -/
def ordemValorDivergencia (a b : ProdutoDivergente) : Bool :=
  |b.valor_divergencia| ≤ |a.valor_divergencia|

/-- `obter_produtos_divergentes` (Analise.py lines 203-231). -/
def obter_produtos_divergentes (st : EstadoSessao) : List ProdutoDivergente :=
  if st.estoque_sistema = [] ∨ st.estoque_fisico = [] then []
  else (produtosDivergentesBrutos st).mergeSort ordemValorDivergencia

/-- `realizar_contagem_ciclica` (Analise.py lines 239-266).  Returns the error
dictionary (modelled by `Except.error`) when the code misses either store;
otherwise builds the count event, appends it to the ledger and — when the
divergence is non-zero — to the divergent subset. -/
def realizar_contagem_ciclica (st : EstadoSessao) (codigo : String) :
    Except String Contagem × EstadoSessao :=
  match st.estoque_sistema.lookup codigo, st.estoque_fisico.lookup codigo with
  | some produto_info, some qtd_fisica =>
      let qtd_sistema := produto_info.quantidade
      let divergencia := qtd_fisica - qtd_sistema
      let contagem : Contagem :=
        { timestamp := st.agora
          codigo := codigo
          nome := produto_info.nome
          categoria := produto_info.categoria
          qtd_sistema := qtd_sistema
          qtd_fisica := qtd_fisica
          divergencia := divergencia
          valor_divergencia := (divergencia.natAbs : Rat) * produto_info.valor_unitario
          status := if divergencia = 0 then "OK" else "DIVERGENTE" }
      let st' : EstadoSessao :=
        { st with
          contagens_ciclicas := st.contagens_ciclicas ++ [contagem]
          divergencias :=
            if divergencia ≠ 0 then st.divergencias ++ [contagem] else st.divergencias
          agora := st.agora + 1 }
      (Except.ok contagem, st')
  | _, _ => (Except.error "Produto nao encontrado em ambos os estoques", st)

/-- `calcular_acuracidade` (Analise.py lines 268-292). -/
def calcular_acuracidade (st : EstadoSessao) : Except String Metricas :=
  if st.contagens_ciclicas = [] then
    Except.error "Nenhuma contagem realizada"
  else
    let total_contagens := st.contagens_ciclicas.length
    let contagens_ok := (st.contagens_ciclicas.filter (fun c => c.status == "OK")).length
    let acuracidade_percentual := ((contagens_ok : Rat) / (total_contagens : Rat)) * 100
    let valor_total_divergencias := (st.divergencias.map (fun d => d.valor_divergencia)).sum
    let valor_total_estoque :=
      (st.estoque_sistema.map
        (fun p => (p.2.quantidade : Rat) * p.2.valor_unitario)).sum
    let impacto_financeiro_percent :=
      if valor_total_estoque > 0 then
        valor_total_divergencias / valor_total_estoque * 100
      else 0
    Except.ok
      { acuracidade_percentual := acuracidade_percentual
        total_contagens := total_contagens
        produtos_divergentes := st.divergencias.length
        valor_divergencias := valor_total_divergencias
        impacto_financeiro_percent := impacto_financeiro_percent
        valor_total_estoque := valor_total_estoque }

/-- `calcular_acuracidade_inicial` (Analise.py lines 169-182). -/
def calcular_acuracidade_inicial (st : EstadoSessao) : Rat :=
  if st.estoque_sistema = [] ∨ st.estoque_fisico = [] then 78
  else
    let produtos_comuns := obter_produtos_comuns st
    if produtos_comuns = [] then 78
    else
      let produtos_ok := produtos_comuns.countP (fun codigo =>
        match st.estoque_sistema.lookup codigo, st.estoque_fisico.lookup codigo with
        | some produto_info, some qtd_fisica => produto_info.quantidade == qtd_fisica
        | _, _ => false)
      ((produtos_ok : Rat) / (produtos_comuns.length : Rat)) * 100

/-- `calcular_economia_projetada` (Analise.py lines 184-201).  The float
literal `0.8` is modelled by the rational `4/5`. -/
def calcular_economia_projetada (st : EstadoSessao) : Rat :=
  if st.estoque_sistema = [] ∨ st.estoque_fisico = [] then 36700
  else
    let valor_total_divergencias :=
      ((obter_produtos_comuns st).filterMap (fun codigo =>
        match st.estoque_sistema.lookup codigo, st.estoque_fisico.lookup codigo with
        | some produto_info, some qtd_fisica =>
            some (((qtd_fisica - produto_info.quantidade).natAbs : Rat) *
              produto_info.valor_unitario)
        | _, _ => none)).sum
    let economia_mensal := valor_total_divergencias * (4 / 5)
    max economia_mensal 5000

/-- The target accuracy derived at the top of `gerar_dados_simulacao`
(Analise.py lines 301-307). -/
def metaFinal (acuracidade_inicial : Rat) : Rat :=
  if acuracidade_inicial ≥ 90 then min 98 (acuracidade_inicial + 5)
  else if acuracidade_inicial ≥ 80 then 95
  else 92

/-- The body of the day loop of `gerar_dados_simulacao` (Analise.py lines
309-337), with the call to `random.uniform(-0.5, 0.5)` made an explicit
jitter stream `ruido`.  The float literals `0.4`, `0.8`, `0.2` become the
rationals `4/10`, `8/10`, `2/10`. -/
def pontoDia (acuracidade_inicial : Rat) (ruido : Nat → Rat) (dia : Nat) :
    PontoSimulacao :=
  let meta_final : Rat := metaFinal acuracidade_inicial
  let acuracidade : Rat :=
    if dia = 0 then acuracidade_inicial
    else if dia ≤ 10 then
      acuracidade_inicial + (meta_final - acuracidade_inicial) * (4 / 10) * ((dia : Rat) / 10)
    else if dia ≤ 20 then
      acuracidade_inicial + (meta_final - acuracidade_inicial) * (4 / 10) +
        (meta_final - acuracidade_inicial) * (4 / 10) * (((dia : Rat) - 10) / 10)
    else
      acuracidade_inicial + (meta_final - acuracidade_inicial) * (8 / 10) +
        (meta_final - acuracidade_inicial) * (2 / 10) * (((dia : Rat) - 20) / 10)
  let acuracidade := acuracidade + ruido dia
  let acuracidade := max (acuracidade_inicial - 2) (min (meta_final + 1) acuracidade)
  let fase :=
    if dia ≤ 10 then "Implementacao"
    else if dia ≤ 20 then "Estabilizacao"
    else "Otimizacao"
  { dia := dia, acuracidade := acuracidade, fase := fase }

/-- The day loop of `gerar_dados_simulacao` (Analise.py lines 309-337) with
the derived initial accuracy made an explicit argument: one point per day
from day 0 to day `dias`. -/
def gerar_dados_simulacao_com (acuracidade_inicial : Rat) (ruido : Nat → Rat)
    (dias : Nat) : List PontoSimulacao :=
  (List.range (dias + 1)).map (pontoDia acuracidade_inicial ruido)

/-- `gerar_dados_simulacao` itself: the initial accuracy is derived from the
loaded data. -/
def gerar_dados_simulacao (st : EstadoSessao) (ruido : Nat → Rat)
    (dias : Nat) : List PontoSimulacao :=
  gerar_dados_simulacao_com (calcular_acuracidade_inicial st) ruido dias

/-- The sidebar "Reset Contagens" handler (Analise.py lines 564-568). -/
def reset_contagens (st : EstadoSessao) : EstadoSessao :=
  { st with movimentacoes := [], divergencias := [], contagens_ciclicas := [] }

/-- One engine operation on the session state: spreadsheet ingestion, a single
cyclic count, or the bulk reset. -/
inductive Passo : EstadoSessao → EstadoSessao → Prop
  | carregarSistema (st : EstadoSessao) (pl : PlanilhaSistema) :
      Passo st (carregar_planilha_sistema st pl).2
  | carregarFisico (st : EstadoSessao) (pl : PlanilhaFisico) :
      Passo st (carregar_planilha_fisico st pl).2
  | contagem (st : EstadoSessao) (codigo : String) :
      Passo st (realizar_contagem_ciclica st codigo).2
  | reset (st : EstadoSessao) :
      Passo st (reset_contagens st)

/-- A session state reachable from the freshly initialised state by engine
operations. -/
def Alcancavel (st : EstadoSessao) : Prop :=
  Relation.ReflTransGen Passo estadoInicial st

/-- The scenario of the spec: Catalog has A001 with quantity 150 and unit
value 1200, the physical count reports 145. -/
def estoqueA : EstadoSessao :=
  { estadoInicial with
    estoque_sistema :=
      [("A001", { quantidade := 150, nome := "Notebook", categoria := "Informatica",
                  valor_unitario := 1200 })]
    estoque_fisico := [("A001", 145)] }

/-- Two divergent products with the same divergence value (10 each) and a
third with a smaller one, to exercise the tie-breaking of the sort. -/
def estoqueB : EstadoSessao :=
  { estadoInicial with
    estoque_sistema :=
      [("A", { quantidade := 10, nome := "a", categoria := "c", valor_unitario := 10 }),
       ("B", { quantidade := 5, nome := "b", categoria := "c", valor_unitario := 10 }),
       ("C", { quantidade := 7, nome := "c", categoria := "c", valor_unitario := 1 })]
    estoque_fisico := [("A", 11), ("B", 4), ("C", 9)] }

/-- The zero-quantity scenario of the spec: Catalog has B001 with quantity 0
and unit value 10, the physical count reports 5. -/
def estoqueB001 : EstadoSessao :=
  { estadoInicial with
    estoque_sistema :=
      [("B001", { quantidade := 0, nome := "Livro", categoria := "Livros",
                  valor_unitario := 10 })]
    estoque_fisico := [("B001", 5)] }

/-- A state whose catalog already holds one product, used to observe what a
failed re-ingestion does to it. -/
def estoqueX : EstadoSessao :=
  { estadoInicial with
    estoque_sistema :=
      [("X", { quantidade := 1, nome := "x", categoria := "c", valor_unitario := 2 })] }

/-- A system spreadsheet with all required columns whose second row has a
non-numeric quantity cell: its ingestion fails after loading the first row. -/
def planilhaRuim : PlanilhaSistema :=
  { colunas := ["codigo", "nome", "categoria", "quantidade", "valor_unitario"]
    linhas :=
      [{ codigo := "G", nome := "g", categoria := "c", quantidade := some 3,
         valor_unitario := some 1 },
       { codigo := "Y", nome := "y", categoria := "c", quantidade := none,
         valor_unitario := some 1 }] }

/-- A well-formed system spreadsheet holding the single product A001. -/
def planilhaA : PlanilhaSistema :=
  { colunas := ["codigo", "nome", "categoria", "quantidade", "valor_unitario"]
    linhas :=
      [{ codigo := "A001", nome := "Notebook", categoria := "Informatica",
         quantidade := some 150, valor_unitario := some 1200 }] }

/-- A well-formed physical-count spreadsheet reporting 145 units of A001. -/
def planilhaFisicoA : PlanilhaFisico :=
  { colunas := ["codigo", "quantidade_fisica"]
    linhas := [{ codigo := "A001", quantidade_fisica := some 145 }] }

/-- The session state after one cyclic count of A001 in `estoqueA`. -/
def estoqueAContado : EstadoSessao :=
  (realizar_contagem_ciclica estoqueA "A001").2

/-- The divergence record of product A of `estoqueB`. -/
def produtoA : ProdutoDivergente :=
  { codigo := "A", nome := "a", categoria := "c", qtd_sistema := 10, qtd_fisica := 11,
    divergencia_unidades := 1, divergencia_percentual := 10, valor_unitario := 10,
    valor_divergencia := 10, tipo := "Sobra" }

/-- The divergence record of product B of `estoqueB`: same divergence value as
`produtoA`. -/
def produtoB : ProdutoDivergente :=
  { codigo := "B", nome := "b", categoria := "c", qtd_sistema := 5, qtd_fisica := 4,
    divergencia_unidades := -1, divergencia_percentual := -20, valor_unitario := 10,
    valor_divergencia := 10, tipo := "Falta" }

/-- The divergence record of product C of `estoqueB`: a smaller divergence
value. -/
def produtoC : ProdutoDivergente :=
  { codigo := "C", nome := "c", categoria := "c", qtd_sistema := 7, qtd_fisica := 9,
    divergencia_unidades := 2, divergencia_percentual := 200 / 7, valor_unitario := 1,
    valor_divergencia := 2, tipo := "Sobra" }

/-- The divergence record of product A001 of `estoqueA`. -/
def produtoA001 : ProdutoDivergente :=
  { codigo := "A001", nome := "Notebook", categoria := "Informatica",
    qtd_sistema := 150, qtd_fisica := 145, divergencia_unidades := -5,
    divergencia_percentual := -10 / 3, valor_unitario := 1200,
    valor_divergencia := 6000, tipo := "Falta" }

/-- The divergence record of product B001 of `estoqueB001` (zero system
quantity). -/
def produtoB001 : ProdutoDivergente :=
  { codigo := "B001", nome := "Livro", categoria := "Livros", qtd_sistema := 0,
    qtd_fisica := 5, divergencia_unidades := 5, divergencia_percentual := 0,
    valor_unitario := 10, valor_divergencia := 50, tipo := "Sobra" }

/-- The count event produced for A001 in `estoqueA` (clock tick 0). -/
def contagemA001 : Contagem :=
  { timestamp := 0, codigo := "A001", nome := "Notebook",
    categoria := "Informatica", qtd_sistema := 150, qtd_fisica := 145,
    divergencia := -5, valor_divergencia := 6000, status := "DIVERGENTE" }

/-- The state reached from the initial state by ingesting `planilhaA`, then
`planilhaFisicoA`, then counting A001. -/
def estadoPercorrido : EstadoSessao :=
  (realizar_contagem_ciclica
    (carregar_planilha_fisico
      (carregar_planilha_sistema estadoInicial planilhaA).2 planilhaFisicoA).2
    "A001").2

/-! ### Helper lemmas -/

theorem lookup_isSome_iff_mem_keys {β : Type} (l : List (String × β)) (a : String) :
    (l.lookup a).isSome ↔ a ∈ l.map Prod.fst := by
  simp only [List.lookup_isSome_iff, List.mem_map, beq_iff_eq]
  constructor
  · rintro ⟨p, hp, rfl⟩
    exact ⟨p, hp, rfl⟩
  · rintro ⟨p, hp, rfl⟩
    exact ⟨p, hp, rfl⟩

theorem lookup_none_iff_not_mem_keys {β : Type} (l : List (String × β)) (a : String) :
    l.lookup a = none ↔ a ∉ l.map Prod.fst := by
  rw [← lookup_isSome_iff_mem_keys]
  cases h : l.lookup a <;> simp

theorem mem_keys_of_lookup_some {β : Type} {l : List (String × β)} {a : String} {b : β}
    (h : l.lookup a = some b) : a ∈ l.map Prod.fst := by
  rw [← lookup_isSome_iff_mem_keys, h]
  rfl

theorem natAbs_cast_rat (n : Int) : ((n.natAbs : Rat)) = |(n : Rat)| := by
  rw [Int.cast_natAbs, Int.cast_abs]

/-- Claim C1: `realizar_contagem_ciclica(code)` returns the not-found error
exactly when the code is absent from the catalog store or the observation
store; otherwise it returns a count event whose divergence is
`physical − system`, whose value is `|divergence| × unit_value`, whose status
is OK exactly when the divergence is 0, appends the event to the ledger, and
additionally appends it to the divergent subset exactly when the divergence is
non-zero. -/
theorem realizar_contagem_ciclica_correto (st : EstadoSessao) (codigo : String) :
    ((realizar_contagem_ciclica st codigo).1 =
        Except.error "Produto nao encontrado em ambos os estoques" ↔
      (codigo ∉ st.estoque_sistema.map Prod.fst ∨
        codigo ∉ st.estoque_fisico.map Prod.fst)) ∧
    (∀ produto_info qtd_fisica,
      st.estoque_sistema.lookup codigo = some produto_info →
      st.estoque_fisico.lookup codigo = some qtd_fisica →
      ∃ c, (realizar_contagem_ciclica st codigo).1 = Except.ok c ∧
        c.divergencia = qtd_fisica - produto_info.quantidade ∧
        c.valor_divergencia = |(c.divergencia : Rat)| * produto_info.valor_unitario ∧
        (c.status = "OK" ↔ c.divergencia = 0) ∧
        (c.divergencia ≠ 0 → c.status = "DIVERGENTE") ∧
        (realizar_contagem_ciclica st codigo).2.contagens_ciclicas =
          st.contagens_ciclicas ++ [c] ∧
        ((realizar_contagem_ciclica st codigo).2.divergencias =
          if c.divergencia = 0 then st.divergencias else st.divergencias ++ [c])) := by
  rcases hs : st.estoque_sistema.lookup codigo with _ | produto_info <;>
    rcases hf : st.estoque_fisico.lookup codigo with _ | qtd_fisica
  · refine ⟨?_, ?_⟩
    · simp only [realizar_contagem_ciclica, hs, hf]
      simp [(lookup_none_iff_not_mem_keys _ _).mp hs]
    · intro produto_info qtd_fisica h1 h2
      exact absurd h1 (by simp)
  · refine ⟨?_, ?_⟩
    · simp only [realizar_contagem_ciclica, hs, hf]
      simp [(lookup_none_iff_not_mem_keys _ _).mp hs]
    · intro produto_info qtd_fisica h1 h2
      exact absurd h1 (by simp)
  · refine ⟨?_, ?_⟩
    · simp only [realizar_contagem_ciclica, hs, hf]
      simp [(lookup_none_iff_not_mem_keys _ _).mp hf]
    · intro produto_info qtd_fisica h1 h2
      exact absurd h2 (by simp)
  · constructor
    · simp only [realizar_contagem_ciclica, hs, hf]
      constructor
      · intro h
        exact absurd h (by simp)
      · rintro (h | h)
        · exact absurd (mem_keys_of_lookup_some hs) h
        · exact absurd (mem_keys_of_lookup_some hf) h
    · intro produto_info' qtd_fisica' h1 h2
      injection h1 with e1
      injection h2 with e2
      subst e1
      subst e2
      simp only [realizar_contagem_ciclica, hs, hf]
      refine ⟨_, rfl, rfl, ?_, ?_, ?_, rfl, ?_⟩
      · show ((qtd_fisica - produto_info.quantidade).natAbs : Rat) *
          produto_info.valor_unitario = _
        rw [natAbs_cast_rat]
      · show (if qtd_fisica - produto_info.quantidade = 0 then "OK" else "DIVERGENTE") = "OK" ↔ _
        rcases eq_or_ne (qtd_fisica - produto_info.quantidade) 0 with h | h <;> simp [h]
      · intro h
        show (if qtd_fisica - produto_info.quantidade = 0 then "OK" else "DIVERGENTE") = "DIVERGENTE"
        simp [h]
      · show (if qtd_fisica - produto_info.quantidade ≠ 0 then _ else _) =
          if qtd_fisica - produto_info.quantidade = 0 then _ else _
        rcases eq_or_ne (qtd_fisica - produto_info.quantidade) 0 with h | h <;> simp [h]

/-- Witness for C1 at the concrete scenario `estoqueA`: counting A001 yields a
divergent event with divergence −5 and value 6000, appended to both the
ledger and the divergent subset. -/
theorem realizar_contagem_ciclica_correto_witness :
    ∃ c, (realizar_contagem_ciclica estoqueA "A001").1 = Except.ok c ∧
      c.divergencia = -5 ∧ c.valor_divergencia = 6000 ∧ c.status = "DIVERGENTE" ∧
      (realizar_contagem_ciclica estoqueA "A001").2.contagens_ciclicas = [c] ∧
      (realizar_contagem_ciclica estoqueA "A001").2.divergencias = [c] := by
  obtain ⟨c, hok, hdiv, hval, -, hstat, hled, hsub⟩ :=
    (realizar_contagem_ciclica_correto estoqueA "A001").2
      { quantidade := 150, nome := "Notebook", categoria := "Informatica",
        valor_unitario := 1200 } 145 (by decide) (by decide)
  refine ⟨c, hok, ?_, ?_, ?_, ?_, ?_⟩
  · rw [hdiv]
    decide
  · rw [hval, hdiv]
    norm_num
  · exact hstat (by rw [hdiv]; decide)
  · simpa [estoqueA, estadoInicial] using hled
  · rw [hsub, if_neg (by rw [hdiv]; decide)]
    simp [estoqueA, estadoInicial]

theorem mem_obter_produtos_comuns {st : EstadoSessao} {codigo : String} :
    codigo ∈ obter_produtos_comuns st ↔
      codigo ∈ st.estoque_sistema.map Prod.fst ∧
      codigo ∈ st.estoque_fisico.map Prod.fst := by
  simp [obter_produtos_comuns, List.mem_filter, List.contains_iff_exists_mem_beq]

theorem divergenciaDe_eq_some {st : EstadoSessao} {codigo : String}
    {p : ProdutoDivergente} (h : divergenciaDe st codigo = some p) :
    p.codigo = codigo ∧ p.divergencia_unidades ≠ 0 ∧
    ∃ produto_info qtd_fisica,
      st.estoque_sistema.lookup codigo = some produto_info ∧
      st.estoque_fisico.lookup codigo = some qtd_fisica ∧
      p.qtd_sistema = produto_info.quantidade ∧
      p.divergencia_unidades = qtd_fisica - produto_info.quantidade ∧
      p.valor_divergencia =
        ((qtd_fisica - produto_info.quantidade).natAbs : Rat) * produto_info.valor_unitario ∧
      p.divergencia_percentual =
        (if produto_info.quantidade > 0 then
          ((qtd_fisica - produto_info.quantidade : Int) : Rat) /
            (produto_info.quantidade : Rat) * 100
        else 0) := by
  rcases hs : st.estoque_sistema.lookup codigo with _ | produto_info <;>
    rcases hf : st.estoque_fisico.lookup codigo with _ | qtd_fisica <;>
    simp only [divergenciaDe, hs, hf] at h
  · exact Option.noConfusion h
  · exact Option.noConfusion h
  · exact Option.noConfusion h
  · rcases eq_or_ne (qtd_fisica - produto_info.quantidade) 0 with hz | hz
    · rw [if_neg (by omega)] at h
      exact Option.noConfusion h
    · rw [if_pos hz] at h
      injection h with h
      subst h
      exact ⟨rfl, hz, produto_info, qtd_fisica, rfl, rfl, rfl, rfl, rfl, rfl⟩

theorem divergenciaDe_of_lookups {st : EstadoSessao} {codigo : String}
    {produto_info : ItemSistema} {qtd_fisica : Int}
    (hs : st.estoque_sistema.lookup codigo = some produto_info)
    (hf : st.estoque_fisico.lookup codigo = some qtd_fisica)
    (hnz : qtd_fisica - produto_info.quantidade ≠ 0) :
    ∃ p, divergenciaDe st codigo = some p ∧ p.codigo = codigo ∧
      p.divergencia_unidades = qtd_fisica - produto_info.quantidade := by
  refine ⟨_, by simp only [divergenciaDe, hs, hf]; rw [if_pos hnz], rfl, rfl⟩

theorem mem_produtosDivergentesBrutos {st : EstadoSessao} {p : ProdutoDivergente} :
    p ∈ produtosDivergentesBrutos st ↔
      ∃ codigo, codigo ∈ obter_produtos_comuns st ∧ divergenciaDe st codigo = some p := by
  simp [produtosDivergentesBrutos, List.mem_filterMap]

theorem produtosDivergentesBrutos_vazio {st : EstadoSessao}
    (h : st.estoque_sistema = [] ∨ st.estoque_fisico = []) :
    produtosDivergentesBrutos st = [] := by
  rcases h with h | h <;>
    simp [produtosDivergentesBrutos, obter_produtos_comuns, h, List.filter_eq_nil_iff]

theorem mem_obter_produtos_divergentes {st : EstadoSessao} {p : ProdutoDivergente} :
    p ∈ obter_produtos_divergentes st ↔ p ∈ produtosDivergentesBrutos st := by
  unfold obter_produtos_divergentes
  split
  · rename_i h
    rw [produtosDivergentesBrutos_vazio h]
  · exact List.mem_mergeSort

/-- Claim C2: every item returned by `obter_produtos_divergentes` has a key
present in both stores and a non-zero divergence, and conversely every key
present in both stores whose divergence is non-zero yields an item of the
returned list. -/
theorem obter_produtos_divergentes_chaves (st : EstadoSessao) :
    (∀ p ∈ obter_produtos_divergentes st,
      p.codigo ∈ st.estoque_sistema.map Prod.fst ∧
      p.codigo ∈ st.estoque_fisico.map Prod.fst ∧
      p.divergencia_unidades ≠ 0) ∧
    (∀ codigo produto_info qtd_fisica,
      st.estoque_sistema.lookup codigo = some produto_info →
      st.estoque_fisico.lookup codigo = some qtd_fisica →
      qtd_fisica - produto_info.quantidade ≠ 0 →
      ∃ p ∈ obter_produtos_divergentes st,
        p.codigo = codigo ∧
        p.divergencia_unidades = qtd_fisica - produto_info.quantidade) := by
  constructor
  · intro p hp
    rw [mem_obter_produtos_divergentes, mem_produtosDivergentesBrutos] at hp
    obtain ⟨codigo, hc, hd⟩ := hp
    obtain ⟨hcod, hnz, produto_info, qtd_fisica, hs, hf, -⟩ := divergenciaDe_eq_some hd
    subst hcod
    exact ⟨mem_keys_of_lookup_some hs, mem_keys_of_lookup_some hf, hnz⟩
  · intro codigo produto_info qtd_fisica hs hf hnz
    obtain ⟨p, hp, hcod, hdiv⟩ := divergenciaDe_of_lookups hs hf hnz
    refine ⟨p, ?_, hcod, hdiv⟩
    rw [mem_obter_produtos_divergentes, mem_produtosDivergentesBrutos]
    exact ⟨codigo,
      mem_obter_produtos_comuns.mpr ⟨mem_keys_of_lookup_some hs, mem_keys_of_lookup_some hf⟩,
      hp⟩

/-- Witness for C2 at `estoqueA`: A001 is in both stores with divergence −5,
so the returned list holds an item for it. -/
theorem obter_produtos_divergentes_chaves_witness :
    ∃ p ∈ obter_produtos_divergentes estoqueA,
      p.codigo = "A001" ∧ p.divergencia_unidades = -5 := by
  obtain ⟨p, hp, hcod, hdiv⟩ :=
    (obter_produtos_divergentes_chaves estoqueA).2 "A001"
      { quantidade := 150, nome := "Notebook", categoria := "Informatica",
        valor_unitario := 1200 } 145 (by decide) (by decide) (by decide)
  exact ⟨p, hp, hcod, hdiv⟩

theorem ordemValorDivergencia_trans (a b c : ProdutoDivergente) :
    ordemValorDivergencia a b → ordemValorDivergencia b c → ordemValorDivergencia a c := by
  simp only [ordemValorDivergencia, decide_eq_true_eq]
  intro h1 h2
  exact le_trans h2 h1

theorem ordemValorDivergencia_total (a b : ProdutoDivergente) :
    ordemValorDivergencia a b || ordemValorDivergencia b a := by
  simp only [ordemValorDivergencia, Bool.or_eq_true, decide_eq_true_eq]
  exact le_total _ _

/-- Claim C3: the list returned by `obter_produtos_divergentes` is a
permutation of the unsorted divergence list, sorted descending by
`|valor_divergencia|`, and the sort is stable: two items keeping equal keys
keep their first-encountered order. -/
theorem obter_produtos_divergentes_ordenado (st : EstadoSessao) :
    (obter_produtos_divergentes st).Pairwise
      (fun a b => |b.valor_divergencia| ≤ |a.valor_divergencia|) ∧
    (obter_produtos_divergentes st).Perm (produtosDivergentesBrutos st) ∧
    (∀ a b, List.Sublist [a, b] (produtosDivergentesBrutos st) →
      |a.valor_divergencia| = |b.valor_divergencia| →
      List.Sublist [a, b] (obter_produtos_divergentes st)) := by
  unfold obter_produtos_divergentes
  split
  · rename_i h
    rw [produtosDivergentesBrutos_vazio h]
    refine ⟨List.Pairwise.nil, List.Perm.refl _, ?_⟩
    intro a b hab _
    exact absurd (List.eq_nil_of_sublist_nil hab) (by simp)
  · refine ⟨?_, List.mergeSort_perm _ _, ?_⟩
    · have h := List.sorted_mergeSort ordemValorDivergencia_trans
        (fun a b => ordemValorDivergencia_total a b) (produtosDivergentesBrutos st)
      exact h.imp (fun hab => by
        simpa [ordemValorDivergencia, decide_eq_true_eq] using hab)
    · intro a b hab heq
      refine List.pair_sublist_mergeSort ordemValorDivergencia_trans
        (fun a b => ordemValorDivergencia_total a b) ?_ hab
      simp [ordemValorDivergencia, heq]

theorem divergenciaDe_estoqueB_A : divergenciaDe estoqueB "A" = some produtoA := by
  have hs : estoqueB.estoque_sistema.lookup "A" =
      some { quantidade := 10, nome := "a", categoria := "c", valor_unitario := 10 } := rfl
  have hf : estoqueB.estoque_fisico.lookup "A" = some 11 := rfl
  simp only [divergenciaDe, hs, hf]
  norm_num [produtoA]

theorem divergenciaDe_estoqueB_B : divergenciaDe estoqueB "B" = some produtoB := by
  have hs : estoqueB.estoque_sistema.lookup "B" =
      some { quantidade := 5, nome := "b", categoria := "c", valor_unitario := 10 } := rfl
  have hf : estoqueB.estoque_fisico.lookup "B" = some 4 := rfl
  simp only [divergenciaDe, hs, hf]
  norm_num [produtoB]

theorem divergenciaDe_estoqueB_C : divergenciaDe estoqueB "C" = some produtoC := by
  have hs : estoqueB.estoque_sistema.lookup "C" =
      some { quantidade := 7, nome := "c", categoria := "c", valor_unitario := 1 } := rfl
  have hf : estoqueB.estoque_fisico.lookup "C" = some 9 := rfl
  simp only [divergenciaDe, hs, hf]
  norm_num [produtoC]

theorem produtosDivergentesBrutos_estoqueB :
    produtosDivergentesBrutos estoqueB = [produtoA, produtoB, produtoC] := by
  have hc : obter_produtos_comuns estoqueB = ["A", "B", "C"] := rfl
  simp only [produtosDivergentesBrutos, hc, List.filterMap_cons, List.filterMap_nil,
    divergenciaDe_estoqueB_A, divergenciaDe_estoqueB_B, divergenciaDe_estoqueB_C]

/-- Witness for C3 at `estoqueB`: products A and B tie at divergence value 10
and keep their catalog order in the sorted output. -/
theorem obter_produtos_divergentes_ordenado_witness :
    List.Sublist [produtoA, produtoB] (obter_produtos_divergentes estoqueB) := by
  refine (obter_produtos_divergentes_ordenado estoqueB).2.2 produtoA produtoB ?_ ?_
  · rw [produtosDivergentesBrutos_estoqueB]
    exact List.Sublist.cons₂ _ (List.Sublist.cons₂ _ (List.nil_sublist _))
  · norm_num [produtoA, produtoB]

theorem divergenciaDe_estoqueB001 :
    divergenciaDe estoqueB001 "B001" = some produtoB001 := by
  have hs : estoqueB001.estoque_sistema.lookup "B001" =
      some { quantidade := 0, nome := "Livro", categoria := "Livros",
             valor_unitario := 10 } := rfl
  have hf : estoqueB001.estoque_fisico.lookup "B001" = some 5 := rfl
  simp only [divergenciaDe, hs, hf]
  norm_num [produtoB001]

theorem obter_produtos_divergentes_estoqueB001 :
    obter_produtos_divergentes estoqueB001 = [produtoB001] := by
  have hb : produtosDivergentesBrutos estoqueB001 = [produtoB001] := by
    have hc : obter_produtos_comuns estoqueB001 = ["B001"] := rfl
    simp only [produtosDivergentesBrutos, hc, List.filterMap_cons, List.filterMap_nil,
      divergenciaDe_estoqueB001]
  rw [obter_produtos_divergentes, if_neg (by simp [estoqueB001, estadoInicial]), hb,
    List.mergeSort_singleton]

/-- Claim C4: every returned divergent item has
`divergence_percent = divergence_units / system_quantity × 100` when the
system quantity is positive, and `divergence_percent = 0` when the system
quantity is zero (no division by zero). -/
theorem divergencia_percentual_correta (st : EstadoSessao) :
    ∀ p ∈ obter_produtos_divergentes st,
      (0 < p.qtd_sistema →
        p.divergencia_percentual =
          (p.divergencia_unidades : Rat) / (p.qtd_sistema : Rat) * 100) ∧
      (p.qtd_sistema = 0 → p.divergencia_percentual = 0) := by
  intro p hp
  rw [mem_obter_produtos_divergentes, mem_produtosDivergentesBrutos] at hp
  obtain ⟨codigo, -, hd⟩ := hp
  obtain ⟨-, -, produto_info, qtd_fisica, -, -, hq, hdu, -, hperc⟩ :=
    divergenciaDe_eq_some hd
  constructor
  · intro hpos
    rw [hperc, if_pos (by rw [← hq]; exact hpos)]
    rw [hq, hdu]
  · intro hz
    rw [hperc, if_neg (by rw [← hq, hz]; exact lt_irrefl 0)]

/-- Witness for C4 at `estoqueB001` (system quantity 0, physical count 5):
the returned item for B001 has divergence percent exactly 0. -/
theorem divergencia_percentual_correta_witness :
    produtoB001 ∈ obter_produtos_divergentes estoqueB001 ∧
      produtoB001.qtd_sistema = 0 ∧ produtoB001.divergencia_percentual = 0 := by
  have hm : produtoB001 ∈ obter_produtos_divergentes estoqueB001 := by
    rw [obter_produtos_divergentes_estoqueB001]
    exact List.mem_singleton.mpr rfl
  exact ⟨hm, rfl,
    (divergencia_percentual_correta estoqueB001 produtoB001 hm).2 rfl⟩

/-- Claim C5: `calcular_acuracidade` reports the empty-history error exactly
when the ledger holds no count event; otherwise it succeeds and its accuracy
percentage is the share of OK events among all ledger events (no
deduplication by item code). -/
theorem calcular_acuracidade_correta (st : EstadoSessao) :
    (calcular_acuracidade st = Except.error "Nenhuma contagem realizada" ↔
      st.contagens_ciclicas = []) ∧
    (st.contagens_ciclicas ≠ [] →
      ∃ m, calcular_acuracidade st = Except.ok m ∧
        m.acuracidade_percentual =
          ((st.contagens_ciclicas.countP (fun c => c.status == "OK") : Rat) /
            (st.contagens_ciclicas.length : Rat)) * 100) := by
  rcases eq_or_ne st.contagens_ciclicas [] with h | h
  · rw [calcular_acuracidade, if_pos h]
    exact ⟨by simp [h], fun hn => absurd h hn⟩
  · rw [calcular_acuracidade, if_neg h]
    refine ⟨by simp [h], fun _ => ⟨_, rfl, ?_⟩⟩
    show ((st.contagens_ciclicas.filter (fun c => c.status == "OK")).length : Rat) /
        (st.contagens_ciclicas.length : Rat) * 100 = _
    rw [List.countP_eq_length_filter]

/-- Witness for C5 at `estoqueAContado` (one divergent count on record): the
metrics succeed with accuracy 0%. -/
theorem calcular_acuracidade_correta_witness :
    ∃ m, calcular_acuracidade estoqueAContado = Except.ok m ∧
      m.acuracidade_percentual = 0 := by
  have hs : estoqueA.estoque_sistema.lookup "A001" =
      some { quantidade := 150, nome := "Notebook", categoria := "Informatica",
             valor_unitario := 1200 } := rfl
  have hf : estoqueA.estoque_fisico.lookup "A001" = some 145 := rfl
  have hc : estoqueAContado.contagens_ciclicas =
      [{ timestamp := 0, codigo := "A001", nome := "Notebook",
         categoria := "Informatica", qtd_sistema := 150, qtd_fisica := 145,
         divergencia := -5, valor_divergencia := 6000,
         status := "DIVERGENTE" }] := by
    simp only [estoqueAContado, realizar_contagem_ciclica, hs, hf]
    norm_num [estoqueA, estadoInicial]
  obtain ⟨m, hm, hval⟩ :=
    (calcular_acuracidade_correta estoqueAContado).2 (by rw [hc]; simp)
  refine ⟨m, hm, ?_⟩
  rw [hval, hc]
  simp [List.countP_cons, List.countP_nil]

theorem calcular_acuracidade_inicial_estadoInicial :
    calcular_acuracidade_inicial estadoInicial = 78 := rfl

theorem metaFinal_78 : metaFinal 78 = 92 := by
  norm_num [metaFinal]

theorem gerar_dados_simulacao_com_getElem (a : Rat) (ruido : Nat → Rat)
    (dias i : Nat) (h : i < dias + 1) :
    (gerar_dados_simulacao_com a ruido dias)[i]? = some (pontoDia a ruido i) := by
  simp [gerar_dados_simulacao_com, List.getElem?_range h]

theorem pontoDia_78_limites (ruido : Nat → Rat) (dia : Nat) :
    76 ≤ (pontoDia 78 ruido dia).acuracidade ∧
      (pontoDia 78 ruido dia).acuracidade ≤ 93 := by
  have h1 : (78 : Rat) - 2 = 76 := by norm_num
  have h2 : (92 : Rat) + 1 = 93 := by norm_num
  simp only [pontoDia, metaFinal_78, h1, h2]
  exact ⟨le_max_left _ _, max_le (by norm_num) (min_le_left _ _)⟩

theorem pontoDia_78_zero (ruido : Nat → Rat) (h1 : -(1 / 2) ≤ ruido 0)
    (h2 : ruido 0 ≤ 1 / 2) :
    pontoDia 78 ruido 0 =
      { dia := 0, acuracidade := 78 + ruido 0, fase := "Implementacao" } := by
  simp only [pontoDia, metaFinal_78]
  norm_num
  rw [min_eq_right (by linarith), max_eq_right (by linarith)]

/-- Counterexample to claim C6 as stated: with the constant jitter stream 1/2
(allowed by `random.uniform(-0.5, 0.5)`), the day-0 accuracy of the projection
started at 78 is 78.5, not 78, because the source adds jitter to day 0 as
well. -/
theorem gerar_dados_simulacao_dia0_contraexemplo :
    (gerar_dados_simulacao estadoInicial (fun _ => (1 : Rat) / 2) 30)[0]?.map
        (fun p => p.acuracidade) = some (157 / 2) ∧
    ((157 : Rat) / 2) ≠ 78 := by
  constructor
  · rw [gerar_dados_simulacao, calcular_acuracidade_inicial_estadoInicial,
      gerar_dados_simulacao_com_getElem 78 _ 30 0 (by norm_num),
      pontoDia_78_zero (fun _ => (1 : Rat) / 2) (by norm_num) (by norm_num)]
    norm_num
  · norm_num

/-- Claim C6 (amended): with no data loaded the initial accuracy is 78 and
`gerar_dados_simulacao` over 30 days returns exactly 31 points; the day-0
accuracy is 78 plus the day-0 jitter (so within [77.5, 78.5], equal to 78
exactly when that jitter is 0); the day-30 phase label is the optimisation
phase; and for every jitter stream bounded by [-0.5, 0.5] every returned
accuracy lies within [76, 93] (= [initial − 2, target + 1] for target 92). -/
theorem gerar_dados_simulacao_spec (ruido : Nat → Rat)
    (h : ∀ d, -(1 / 2) ≤ ruido d ∧ ruido d ≤ 1 / 2) :
    (gerar_dados_simulacao estadoInicial ruido 30).length = 31 ∧
    (gerar_dados_simulacao estadoInicial ruido 30)[0]?.map
      (fun p => p.acuracidade) = some (78 + ruido 0) ∧
    (gerar_dados_simulacao estadoInicial ruido 30)[30]?.map
      (fun p => p.fase) = some "Otimizacao" ∧
    ∀ p ∈ gerar_dados_simulacao estadoInicial ruido 30,
      76 ≤ p.acuracidade ∧ p.acuracidade ≤ 93 := by
  rw [gerar_dados_simulacao, calcular_acuracidade_inicial_estadoInicial]
  refine ⟨?_, ?_, ?_, ?_⟩
  · simp [gerar_dados_simulacao_com]
  · rw [gerar_dados_simulacao_com_getElem 78 ruido 30 0 (by norm_num),
      pontoDia_78_zero ruido (h 0).1 (h 0).2]
    rfl
  · rw [gerar_dados_simulacao_com_getElem 78 ruido 30 30 (by norm_num)]
    have hf : (pontoDia 78 ruido 30).fase = "Otimizacao" := by
      simp [pontoDia]
    simp [hf]
  · intro p hp
    simp only [gerar_dados_simulacao_com, List.mem_map, List.mem_range] at hp
    obtain ⟨d, -, rfl⟩ := hp
    exact pontoDia_78_limites ruido d

/-- Witness for the amended C6 with the zero jitter stream: 31 points, day-0
accuracy exactly 78, day-30 phase label the optimisation phase. -/
theorem gerar_dados_simulacao_spec_witness :
    (gerar_dados_simulacao estadoInicial (fun _ => 0) 30).length = 31 ∧
    (gerar_dados_simulacao estadoInicial (fun _ => 0) 30)[0]?.map
      (fun p => p.acuracidade) = some 78 ∧
    (gerar_dados_simulacao estadoInicial (fun _ => 0) 30)[30]?.map
      (fun p => p.fase) = some "Otimizacao" := by
  obtain ⟨h1, h2, h3, -⟩ :=
    gerar_dados_simulacao_spec (fun _ => 0) (fun d => by norm_num)
  refine ⟨h1, ?_, h3⟩
  rw [h2]
  norm_num

theorem soma_divergencias_eq (st : EstadoSessao) :
    ((obter_produtos_comuns st).filterMap (fun codigo =>
      match st.estoque_sistema.lookup codigo, st.estoque_fisico.lookup codigo with
      | some produto_info, some qtd_fisica =>
          some (((qtd_fisica - produto_info.quantidade).natAbs : Rat) *
            produto_info.valor_unitario)
      | _, _ => none)).sum =
    ((produtosDivergentesBrutos st).map (fun p => p.valor_divergencia)).sum := by
  unfold produtosDivergentesBrutos
  induction obter_produtos_comuns st with
  | nil => rfl
  | cons c resto ih =>
    rcases hs : st.estoque_sistema.lookup c with _ | info <;>
      rcases hf : st.estoque_fisico.lookup c with _ | qf <;>
      simp only [List.filterMap_cons, hs, hf, divergenciaDe]
    · exact ih
    · exact ih
    · exact ih
    · rcases eq_or_ne (qf - info.quantidade) 0 with hz | hz
      · rw [if_neg (by omega)]
        rw [hz]
        simpa using ih
      · rw [if_pos hz]
        simp only [List.map_cons, List.sum_cons]
        rw [ih]

/-- Claim C7: with both stores non-empty, the projected monthly savings equal
the maximum of 80% of the summed divergence values and the fixed floor 5000,
hence are always strictly positive. -/
theorem calcular_economia_projetada_correta (st : EstadoSessao)
    (h1 : st.estoque_sistema ≠ []) (h2 : st.estoque_fisico ≠ []) :
    calcular_economia_projetada st =
      max (((obter_produtos_divergentes st).map
        (fun p => p.valor_divergencia)).sum * (4 / 5)) 5000 ∧
    0 < calcular_economia_projetada st := by
  have hguard : ¬ (st.estoque_sistema = [] ∨ st.estoque_fisico = []) := by
    push_neg
    exact ⟨h1, h2⟩
  have hperm : ((obter_produtos_divergentes st).map
      (fun p => p.valor_divergencia)).sum =
      ((produtosDivergentesBrutos st).map (fun p => p.valor_divergencia)).sum := by
    rw [obter_produtos_divergentes, if_neg hguard]
    exact ((List.mergeSort_perm _ _).map _).sum_eq
  constructor
  · rw [calcular_economia_projetada, if_neg hguard, hperm, ← soma_divergencias_eq]
  · rw [calcular_economia_projetada, if_neg hguard]
    exact lt_of_lt_of_le (by norm_num) (le_max_right _ _)

theorem obter_produtos_divergentes_estoqueA :
    obter_produtos_divergentes estoqueA = [produtoA001] := by
  have hb : produtosDivergentesBrutos estoqueA = [produtoA001] := by
    have hc : obter_produtos_comuns estoqueA = ["A001"] := rfl
    have hd : divergenciaDe estoqueA "A001" = some produtoA001 := by
      have hs : estoqueA.estoque_sistema.lookup "A001" =
          some { quantidade := 150, nome := "Notebook", categoria := "Informatica",
                 valor_unitario := 1200 } := rfl
      have hf : estoqueA.estoque_fisico.lookup "A001" = some 145 := rfl
      simp only [divergenciaDe, hs, hf]
      norm_num [produtoA001]
    simp only [produtosDivergentesBrutos, hc, List.filterMap_cons, List.filterMap_nil, hd]
  rw [obter_produtos_divergentes, if_neg (by simp [estoqueA, estadoInicial]), hb,
    List.mergeSort_singleton]

/-- Witness for C7 at `estoqueA`: the divergence sum is 6000, 80% of it is
4800, and the reported savings are the floor 5000 (positive). -/
theorem calcular_economia_projetada_correta_witness :
    calcular_economia_projetada estoqueA = 5000 ∧
      0 < calcular_economia_projetada estoqueA := by
  obtain ⟨he, hpos⟩ := calcular_economia_projetada_correta estoqueA
    (by simp [estoqueA, estadoInicial]) (by simp [estoqueA, estadoInicial])
  refine ⟨?_, hpos⟩
  rw [he, obter_produtos_divergentes_estoqueA]
  simp only [List.map_cons, List.map_nil, List.sum_cons, List.sum_nil]
  rw [max_eq_right (by norm_num [produtoA001])]

theorem carregarLinhasSistema_eq (linhas : List LinhaSistema)
    (acc : List (String × ItemSistema)) :
    carregarLinhasSistema acc linhas =
      (linhas.all (fun l => (coagirLinhaSistema l).isSome),
       (linhas.takeWhile (fun l => (coagirLinhaSistema l).isSome)).foldl
         (fun acc l =>
           match coagirLinhaSistema l with
           | some (codigo, item) => dictInsert acc codigo item
           | none => acc) acc) := by
  induction linhas generalizing acc with
  | nil => rfl
  | cons l resto ih =>
    rcases hl : coagirLinhaSistema l with _ | kv
    · simp [carregarLinhasSistema, hl, List.takeWhile_cons, List.all_cons]
    · obtain ⟨codigo, item⟩ := kv
      simp only [carregarLinhasSistema, hl, List.all_cons, List.takeWhile_cons,
        Option.isSome_some, Bool.true_and, if_pos, List.foldl_cons]
      rw [ih]

theorem carregar_planilha_sistema_quadro (st : EstadoSessao) (pl : PlanilhaSistema) :
    (carregar_planilha_sistema st pl).2.estoque_fisico = st.estoque_fisico ∧
    (carregar_planilha_sistema st pl).2.divergencias = st.divergencias ∧
    (carregar_planilha_sistema st pl).2.contagens_ciclicas = st.contagens_ciclicas ∧
    (carregar_planilha_sistema st pl).2.movimentacoes = st.movimentacoes ∧
    (carregar_planilha_sistema st pl).2.agora = st.agora := by
  rw [carregar_planilha_sistema]
  split <;> exact ⟨rfl, rfl, rfl, rfl, rfl⟩

theorem carregar_planilha_fisico_quadro (st : EstadoSessao) (pl : PlanilhaFisico) :
    (carregar_planilha_fisico st pl).2.estoque_sistema = st.estoque_sistema ∧
    (carregar_planilha_fisico st pl).2.divergencias = st.divergencias ∧
    (carregar_planilha_fisico st pl).2.contagens_ciclicas = st.contagens_ciclicas ∧
    (carregar_planilha_fisico st pl).2.movimentacoes = st.movimentacoes ∧
    (carregar_planilha_fisico st pl).2.agora = st.agora := by
  rw [carregar_planilha_fisico]
  split <;> exact ⟨rfl, rfl, rfl, rfl, rfl⟩

/-- Counterexample to claim C8 as stated: re-ingesting `planilhaRuim` (valid
columns, second row with a non-coercible quantity) over the catalog
`[("X", …)]` fails but leaves the store holding `[("G", …)]` — the partially
loaded prefix — rather than the pre-call catalog. -/
theorem carregar_planilha_sistema_contraexemplo :
    (carregar_planilha_sistema estoqueX planilhaRuim).1 = false ∧
    (carregar_planilha_sistema estoqueX planilhaRuim).2.estoque_sistema ≠
      estoqueX.estoque_sistema := by
  have hres : carregar_planilha_sistema estoqueX planilhaRuim =
      (false, { estoqueX with estoque_sistema :=
        [("G", { quantidade := 3, nome := "g", categoria := "c",
                 valor_unitario := 1 })] }) := rfl
  rw [hres]
  refine ⟨rfl, ?_⟩
  intro heq
  simp [estoqueX, estadoInicial] at heq

/-- Claim C8 (amended): an ingestion failure caused by missing required
columns leaves the state exactly as before.  With valid columns, the call
first clears the catalog store and then loads rows one by one, so it succeeds
exactly when every row coerces, and the final catalog holds exactly the
loaded prefix of coercible rows — after a row-level coercion failure this is
the partially loaded catalog, not the pre-call one.  No other session field
is ever written. -/
theorem carregar_planilha_sistema_spec (st : EstadoSessao) (pl : PlanilhaSistema) :
    (validar_colunas pl.colunas
        ["codigo", "nome", "categoria", "quantidade", "valor_unitario"] = false →
      carregar_planilha_sistema st pl = (false, st)) ∧
    (validar_colunas pl.colunas
        ["codigo", "nome", "categoria", "quantidade", "valor_unitario"] = true →
      (carregar_planilha_sistema st pl).1 =
        pl.linhas.all (fun l => (coagirLinhaSistema l).isSome) ∧
      (carregar_planilha_sistema st pl).2.estoque_sistema =
        (pl.linhas.takeWhile (fun l => (coagirLinhaSistema l).isSome)).foldl
          (fun acc l =>
            match coagirLinhaSistema l with
            | some (codigo, item) => dictInsert acc codigo item
            | none => acc) []) ∧
    (carregar_planilha_sistema st pl).2.estoque_fisico = st.estoque_fisico ∧
    (carregar_planilha_sistema st pl).2.divergencias = st.divergencias ∧
    (carregar_planilha_sistema st pl).2.contagens_ciclicas = st.contagens_ciclicas ∧
    (carregar_planilha_sistema st pl).2.movimentacoes = st.movimentacoes := by
  obtain ⟨q1, q2, q3, q4, -⟩ := carregar_planilha_sistema_quadro st pl
  refine ⟨?_, ?_, q1, q2, q3, q4⟩
  · intro hv
    rw [carregar_planilha_sistema, if_pos (by rw [hv]; simp)]
  · intro hv
    rw [carregar_planilha_sistema, if_neg (by rw [hv]; simp)]
    rw [carregarLinhasSistema_eq]
    exact ⟨rfl, rfl⟩

/-- Witness for the amended C8 at `estoqueX` and `planilhaRuim`: the columns
validate, the call fails on the second row, and the store ends up holding
exactly the first row. -/
theorem carregar_planilha_sistema_spec_witness :
    (carregar_planilha_sistema estoqueX planilhaRuim).1 = false ∧
    (carregar_planilha_sistema estoqueX planilhaRuim).2.estoque_sistema =
      [("G", { quantidade := 3, nome := "g", categoria := "c",
               valor_unitario := 1 })] ∧
    (carregar_planilha_sistema estoqueX planilhaRuim).2.estoque_fisico =
      estoqueX.estoque_fisico := by
  obtain ⟨-, h2, h3, -, -, -⟩ := carregar_planilha_sistema_spec estoqueX planilhaRuim
  obtain ⟨hb, hs⟩ := h2 rfl
  refine ⟨?_, ?_, h3⟩
  · rw [hb]
    rfl
  · rw [hs]
    rfl

/-- Claim C9: resetting the counts empties the ledger, the divergent subset
and the movement log, leaves both inventory stores untouched, and makes an
immediate metrics request report the empty-history error. -/
theorem reset_contagens_correto (st : EstadoSessao) :
    (reset_contagens st).estoque_sistema = st.estoque_sistema ∧
    (reset_contagens st).estoque_fisico = st.estoque_fisico ∧
    (reset_contagens st).contagens_ciclicas = [] ∧
    (reset_contagens st).divergencias = [] ∧
    (reset_contagens st).movimentacoes = [] ∧
    calcular_acuracidade (reset_contagens st) =
      Except.error "Nenhuma contagem realizada" := by
  refine ⟨rfl, rfl, rfl, rfl, rfl, ?_⟩
  rw [calcular_acuracidade,
    if_pos (show (reset_contagens st).contagens_ciclicas = ([] : List Contagem) from rfl)]

/-- Witness for C9 at `estoqueAContado`: after the reset both stores are as
before and the metrics request fails with the empty-history error. -/
theorem reset_contagens_correto_witness :
    (reset_contagens estoqueAContado).estoque_sistema =
      estoqueAContado.estoque_sistema ∧
    calcular_acuracidade (reset_contagens estoqueAContado) =
      Except.error "Nenhuma contagem realizada" := by
  obtain ⟨h1, -, -, -, -, h6⟩ := reset_contagens_correto estoqueAContado
  exact ⟨h1, h6⟩

theorem passo_preserva_divergencias {s s' : EstadoSessao} (h : Passo s s')
    (hsub : List.Sublist s.divergencias s.contagens_ciclicas)
    (hst : ∀ c ∈ s.divergencias, c.status = "DIVERGENTE" ∧ c.divergencia ≠ 0) :
    List.Sublist s'.divergencias s'.contagens_ciclicas ∧
      ∀ c ∈ s'.divergencias, c.status = "DIVERGENTE" ∧ c.divergencia ≠ 0 := by
  cases h with
  | carregarSistema pl =>
      obtain ⟨-, hd, hc, -, -⟩ := carregar_planilha_sistema_quadro s pl
      rw [hd, hc]
      exact ⟨hsub, hst⟩
  | carregarFisico pl =>
      obtain ⟨-, hd, hc, -, -⟩ := carregar_planilha_fisico_quadro s pl
      rw [hd, hc]
      exact ⟨hsub, hst⟩
  | contagem codigo =>
      rcases hs : s.estoque_sistema.lookup codigo with _ | produto_info <;>
        rcases hf : s.estoque_fisico.lookup codigo with _ | qtd_fisica <;>
        simp only [realizar_contagem_ciclica, hs, hf]
      · exact ⟨hsub, hst⟩
      · exact ⟨hsub, hst⟩
      · exact ⟨hsub, hst⟩
      · rcases eq_or_ne (qtd_fisica - produto_info.quantidade) 0 with hz | hz
        · rw [if_neg (by omega)]
          exact ⟨hsub.trans (List.sublist_append_left _ _), hst⟩
        · rw [if_pos hz]
          refine ⟨List.Sublist.append hsub (List.Sublist.refl _), ?_⟩
          intro c hc
          rcases List.mem_append.mp hc with hc | hc
          · exact hst c hc
          · rw [List.mem_singleton.mp hc]
            exact ⟨by simp [hz], hz⟩
  | reset =>
      exact ⟨List.nil_sublist _, by simp [reset_contagens]⟩

/-- Claim C10: in every session state reachable from the initial state by
engine operations (spreadsheet ingestions, single cyclic counts, resets), the
divergent subset is a sub-multiset of the ledger, and each of its events has
status DIVERGENTE and non-zero divergence. -/
theorem divergencias_invariante (st : EstadoSessao) (h : Alcancavel st) :
    (∀ c ∈ st.divergencias,
      c ∈ st.contagens_ciclicas ∧ c.status = "DIVERGENTE" ∧ c.divergencia ≠ 0) ∧
    ∀ c, st.divergencias.count c ≤ st.contagens_ciclicas.count c := by
  have h' : Relation.ReflTransGen Passo estadoInicial st := h
  clear h
  have key : List.Sublist st.divergencias st.contagens_ciclicas ∧
      ∀ c ∈ st.divergencias, c.status = "DIVERGENTE" ∧ c.divergencia ≠ 0 := by
    induction h' with
    | refl => exact ⟨List.Sublist.refl _, by simp [estadoInicial]⟩
    | tail hsteps hstep ih => exact passo_preserva_divergencias hstep ih.1 ih.2
  exact ⟨fun c hc => ⟨key.1.subset hc, (key.2 c hc).1, (key.2 c hc).2⟩,
    fun c => key.1.count_le c⟩

/-- Witness for C10 at `estadoPercorrido` (catalog load, physical load, one
divergent count): the divergent event A001 occurs in the ledger at least as
often as in the divergent subset. -/
theorem divergencias_invariante_witness :
    List.count contagemA001 estadoPercorrido.divergencias ≤
      List.count contagemA001 estadoPercorrido.contagens_ciclicas := by
  have hreach : Alcancavel estadoPercorrido :=
    Relation.ReflTransGen.tail
      (Relation.ReflTransGen.tail
        (Relation.ReflTransGen.tail Relation.ReflTransGen.refl
          (Passo.carregarSistema estadoInicial planilhaA))
        (Passo.carregarFisico _ planilhaFisicoA))
      (Passo.contagem _ "A001")
  exact (divergencias_invariante estadoPercorrido hreach).2 contagemA001
